import Mathlib

/-!
Shallow embedding of the vocabulary resolver of `app/utils/vectordb.py`
(functions `_get_model` and `fetch_vocab_from_vector_db`).

The Python function talks to a LanceDB store, the filesystem, and a
sentence-transformer model.  Those external collaborators are modelled by an
explicit environment record `Env`: each external call the code can make
(directory listing, connection, catalog enumeration, each table-open calling
convention, the raw-dataset reader, the encoder) is one field of `Env`, giving
the outcome of each call.  The function itself is transcribed statement by
statement; ghost trace fields (`events`, `attempts`, `errors`, `logs`) record
which external operations the transcribed code performs, in order, so that
the claims of the specification about call sequences ("before any storage access",
"retry with the expected identifier", "flagged in logs") can be stated.
-/

/-- ASCII-faithful model of Python `str.lower()`, written over the character
list so that it evaluates in the kernel. -/
def strLower (s : String) : String := ⟨s.data.map Char.toLower⟩

/-- Model of Python `str.endswith(suf)`, written over character lists so that
it evaluates in the kernel. -/
def strEndsWith (s suf : String) : Bool :=
  decide (suf.data.length ≤ s.data.length) &&
    (s.data.drop (s.data.length - suf.data.length) == suf.data)

/-- One row of a vocabulary table: the schema of the store has a German term, an
English translation and an embedding vector (`vectordb.py` line 398 projects
exactly the first two columns).  Embedding vectors are modelled as integer
lists. -/
structure VocabRow where
  german_term : String
  english_translation : String
  vector : List Int
deriving DecidableEq, Repr

/-- One entry of the storage-root directory listing (`db_path_obj.iterdir()`,
line 73): a name and whether it is a directory. -/
structure DirEntry where
  name : String
  isDir : Bool
deriving DecidableEq, Repr

/-- The raw `lance.dataset` handle of method 7 (lines 310-326): its rows, in
on-disk order, and whether the version of the reader in use exposes a
`search` method (line 376) and whether that search raises (line 387). -/
structure LanceDataset where
  rows : List VocabRow
  hasSearch : Bool
  searchRaises : Bool
deriving DecidableEq, Repr

/-- Environment of external collaborators: one field per external call site
of `fetch_vocab_from_vector_db`.  A `.error` value models the Python call
raising an exception carrying that message. -/
structure Env where
  /-- Python check `db_path_obj.exists()`, line 57. -/
  rootExists : Bool
  /-- Listing of the storage root, lines 64 and 73.  The model assumes the
  listing itself does not raise (line 73 of the code would propagate such an
  exception). -/
  rootEntries : List DirEntry
  /-- Whether `connect(abs_db_path)` (line 162) succeeds. -/
  connectOk : Bool
  /-- Whether the `file://` retry (line 167) succeeds. -/
  connectUriOk : Bool
  /-- Result of catalog enumeration, lines 173-183: `db.table_names()` or
  `db.list_tables()`.  The empty list models both "no names" and
  "enumeration unavailable or raising", exactly as the
  `lancedb_table_names = []` default of the code plus truthiness tests do. -/
  apiTables : List String
  /-- Python hasattr check for the table accessor, lines 243 and 275. -/
  hasTableFn : Bool
  /-- Result of `db.open_table(name)` (lines 223, 254, also reused for the fresh
  connections of methods 5 and 6 via separate fields below). -/
  openTableRes : String → Except String (List VocabRow)
  /-- Result of `db[name]`, lines 234 and 266. -/
  bracketRes : String → Except String (List VocabRow)
  /-- Result of `db.table(name)`, lines 244 and 276. -/
  tableFnRes : String → Except String (List VocabRow)
  /-- Method 5, lines 282-295: `connect(parent)` then `open_table(dbName)`,
  as one fallible call. -/
  directPathRes : Except String (List VocabRow)
  /-- Method 6, lines 297-308: fresh `connect(abs_db_path)` then
  `open_table(dbName)`, as one fallible call. -/
  freshConnRes : Except String (List VocabRow)
  /-- Method 7, lines 310-326: `lance.dataset(path)`. -/
  lanceRes : Except String LanceDataset
  /-- Result of `model.encode(query)`, line 365: deterministic embedding of a query
  string. -/
  encode : String → List Int

/-- Line 50: `dbName = level + "_MINIMAL_vocabulary"`. -/
def expectedDbName (level : String) : String := level ++ "_MINIMAL_vocabulary"

/-- Line 73: directory entries that are directories whose name ends in
`.lance` (the names keep the `.lance` suffix, as in the source). -/
def available_tables (entries : List DirEntry) : List String :=
  (entries.filter (fun d => d.isDir && strEndsWith d.name ".lance")).map DirEntry.name

/-- Lines 82, 285, 315: `table_dir_path.exists() and table_dir_path.is_dir()`
for `dbName + ".lance"`, decided against the root listing. -/
def tableDirOk (entries : List DirEntry) (dbName : String) : Bool :=
  entries.any (fun d => d.name == dbName ++ ".lance" && d.isDir)

/-- Lines 193-213: choose the table name to open.  If the catalog enumeration
returned names (Python truthiness of `lancedb_table_names`): an exact match
of `dbName` wins, else the first case-insensitive match, else `dbName`
itself; with no enumerated names, `dbName` itself. -/
def resolveTableName (apiNames : List String) (dbName : String) : String :=
  if !apiNames.isEmpty then
    if apiNames.contains dbName then dbName
    else
      match apiNames.find? (fun nm => strLower nm == strLower dbName) with
      | some nm => nm
      | none => dbName
  else dbName

example : resolveTableName [] "A1_MINIMAL_vocabulary" = "A1_MINIMAL_vocabulary" := by decide

example :
    resolveTableName ["a1_minimal_vocabulary"] "A1_MINIMAL_vocabulary" =
      "a1_minimal_vocabulary" := by decide

/-- The calling conventions the table-open ladder tries (lines 221-326). -/
inductive Method where
  /-- Call `db.open_table(name)` (methods 1 and 3). -/
  | openTable
  /-- Call `db[name]` (methods 2 and 4). -/
  | bracket
  /-- Call `db.table(name)` (methods 2b and 4b). -/
  | tableFn
  /-- method 5: fresh connection to the parent directory, then open. -/
  | directPath
  /-- method 6: fresh connection to the store root, then open. -/
  | freshConn
  /-- method 7: `lance.dataset` raw reader. -/
  | lanceDirect
deriving DecidableEq, Repr

/-- What the ladder produced: a LanceDB table (its rows), or the raw
`lance.dataset` of method 7 (`use_lance_direct = True`, line 322). -/
inductive Handle where
  | table (rows : List VocabRow)
  | lanceDS (ds : LanceDataset)
deriving DecidableEq, Repr

/-- State threaded through the open ladder.  `handle`, `triedNames` and
`lastError` are the variables `table`, `tried_names` and `last_error` of the source
variables; `attempts` and `errors` are ghost traces recording every access
call actually made and every exception actually raised, in order, so claims
about the attempt sequence and the error set can be stated. -/
structure OpenOutcome where
  handle : Option Handle
  triedNames : List String
  lastError : Option String
  attempts : List (Method × String)
  errors : List String
deriving DecidableEq, Repr

/-- One `try/except` rung of the ladder.  It runs only while no table has
been obtained (`if table is None`) and its extra guard holds; on success it
stores the handle, on exception it stores the message in `last_error`.
`recordTried` marks the two rungs (methods 1 and 3) that append to
`tried_names` in both branches; `resetErrOnOk` marks method 3, which resets
`last_error = None` on success (line 257). -/
def ladderStep (o : OpenOutcome) (guard : Bool) (m : Method) (nm : String)
    (recordTried resetErrOnOk : Bool) (res : Except String Handle) : OpenOutcome :=
  if o.handle.isNone && guard then
    match res with
    | .ok h =>
      { o with
        handle := some h
        triedNames := if recordTried then o.triedNames ++ [nm] else o.triedNames
        lastError := if resetErrOnOk then none else o.lastError
        attempts := o.attempts ++ [(m, nm)] }
    | .error e =>
      { o with
        lastError := some e
        triedNames := if recordTried then o.triedNames ++ [nm] else o.triedNames
        attempts := o.attempts ++ [(m, nm)]
        errors := o.errors ++ [e] }
  else o

/-- Lines 215-326: the table-open ladder.  `resolved` is
`table_name_to_use`, `dbName` the expected identifier, `tdo` the cached
`table_dir_path.exists() and is_dir()` test.  Each `ladderStep` call below
transcribes one method of the source, in source order:
method 1 `open_table(resolved)`; method 2 `db[resolved]`; method 2b
`db.table(resolved)` guarded by `hasattr`; method 3 `open_table(dbName)`
guarded by `lancedb_table_names and resolved in lancedb_table_names`
(line 251); method 4 `db[dbName]`; method 4b `db.table(dbName)`; method 5
direct-path open guarded by the table directory existing; method 6 fresh
connection; method 7 `lance.dataset` guarded by the table directory
existing. -/
def openLadder (env : Env) (resolved dbName : String) (tdo : Bool) : OpenOutcome :=
  let o0 : OpenOutcome := ⟨none, [], none, [], []⟩
  let o1 := ladderStep o0 true .openTable resolved true false
    ((env.openTableRes resolved).map Handle.table)
  let o2 := ladderStep o1 true .bracket resolved false false
    ((env.bracketRes resolved).map Handle.table)
  let o3 := ladderStep o2 env.hasTableFn .tableFn resolved false false
    ((env.tableFnRes resolved).map Handle.table)
  let o4 := ladderStep o3 (!env.apiTables.isEmpty && env.apiTables.contains resolved)
    .openTable dbName true true ((env.openTableRes dbName).map Handle.table)
  let o5 := ladderStep o4 true .bracket dbName false false
    ((env.bracketRes dbName).map Handle.table)
  let o6 := ladderStep o5 env.hasTableFn .tableFn dbName false false
    ((env.tableFnRes dbName).map Handle.table)
  let o7 := ladderStep o6 tdo .directPath dbName false false
    (env.directPathRes.map Handle.table)
  let o8 := ladderStep o7 true .freshConn dbName false false
    (env.freshConnRes.map Handle.table)
  ladderStep o8 tdo .lanceDirect dbName false false (env.lanceRes.map Handle.lanceDS)

/-- Diagnostic payload of the `FileNotFoundError` raised at lines 346-359
when the whole ladder failed: the resolved name, the deduplicated
`list(set([table_name_to_use, dbName] + tried_names))`, the single
`last_error`, the directory-scan names, and the API enumeration names
(which the message includes only when non-empty; the model carries the
list, empty meaning absent, exactly as the message-building conditional at
line 354 does). -/
structure TNFInfo where
  resolvedName : String
  triedNames : List String
  lastError : Option String
  availableTables : List String
  apiTables : List String
deriving DecidableEq, Repr

/-- Model of Python `list(set(...))`: deduplicate keeping first occurrences.
Python set order is unspecified; the claims about the payload only use
membership, which this model shares with every ordering. -/
def pySetList (l : List String) : List String :=
  l.foldl (fun acc x => if acc.contains x then acc else acc ++ [x]) []

/-- Lines 346-357: build the diagnostic payload.  The Python `list(set(...))`
is modelled by `pySetList`, which has the same membership. -/
def mkTNFInfo (resolved dbName : String) (o : OpenOutcome)
    (avail api : List String) : TNFInfo :=
  { resolvedName := resolved
    triedNames := pySetList (resolved :: dbName :: o.triedNames)
    lastError := o.lastError
    availableTables := avail
    apiTables := api }

/-- State of the module-level `_model` cache (line 16): whether a model is
cached, and a ghost count of how many times the constructor
`SentenceTransformer(...)` actually ran. -/
structure ModelState where
  loaded : Bool
  loadCount : Nat
deriving DecidableEq, Repr

/-- Lines 19-29, `_get_model`: construct the model only when the cache is
empty, otherwise reuse it.  Returns the updated cache state; the model value
itself carries no data in the embedding (its encoding behaviour lives in
`Env.encode`). -/
def get_model (ms : ModelState) : ModelState :=
  if ms.loaded then ms else { loaded := true, loadCount := ms.loadCount + 1 }

/-- The exceptions `fetch_vocab_from_vector_db` can raise: the `ValueError`
of line 48 (InvalidArgument), the `FileNotFoundError` of line 60
(StorageUnavailable), the re-raised connection failure of line 170, and the
`FileNotFoundError` of line 359 (TableNotFound) with its diagnostic
payload. -/
inductive FetchErr where
  | invalidLevel (level : String)
  | storageMissing
  | connectFailed
  | tableNotFound (info : TNFInfo)
deriving DecidableEq, Repr

/-- A pandas DataFrame, modelled as its column names plus rows of string
cells aligned with the columns. -/
structure DataFrame where
  columns : List String
  rows : List (List String)
deriving DecidableEq, Repr

/-- Ghost trace of the storage, connection and model operations the code
performs, in order, used to state the "before any storage access" claims. -/
inductive Event where
  /-- Python check `db_path_obj.exists()`, line 57. -/
  | checkRootExists
  /-- directory scans of the storage root, lines 64-80. -/
  | listRootDir
  /-- Call `connect(abs_db_path)`, line 162. -/
  | connectStore
  /-- Call of connect with the file URI form, line 167. -/
  | connectStoreUri
  /-- catalog enumeration, lines 173-183. -/
  | enumerateTables
  /-- one rung of the open ladder actually calling the store. -/
  | accessAttempt (m : Method) (nm : String)
  /-- the `_get_model()` call, line 363. -/
  | getModelCall
  /-- Call `model.encode(query)`, line 365. -/
  | encodeQuery
  /-- a similarity search against the open handle, lines 377 and 393. -/
  | searchTable
  /-- loading the full raw dataset, lines 383 and 390. -/
  | readDataset
deriving DecidableEq, Repr

/-- The log lines of the search phase (lines 370-395) that distinguish the
ranked path from the degraded unranked fallback. -/
inductive LogEvent where
  /-- line 378: `Used lance.dataset.search() method`. -/
  | usedLanceSearch
  /-- line 382: the dataset does not support vector search, loading all. -/
  | noVectorSearchLoadingAll
  /-- line 386: returning first n rows, not semantically ranked. -/
  | returningFirstUnranked (n : Int)
  /-- line 388: vector search with lance.dataset failed, using fallback. -/
  | lanceSearchFailedFallback
deriving DecidableEq, Repr

/-- Everything one call of `fetch_vocab_from_vector_db` produces: the value
returned to the caller (or the exception raised), the model-cache state after
the call, and the ghost event and log traces. -/
structure FetchOutcome where
  result : Except FetchErr (List String)
  modelState : ModelState
  events : List Event
  logs : List LogEvent
deriving Repr

/-- Squared L2 distance between two embedding vectors, the metric of the
nearest-neighbour search of the store. -/
def sqDist (a b : List Int) : Int :=
  (List.zipWith (fun x y => (x - y) * (x - y)) a b).sum

/-- Insert a row into a distance-sorted list (ascending distance to `qv`). -/
def insertByDist (qv : List Int) (r : VocabRow) : List VocabRow → List VocabRow
  | [] => [r]
  | s :: rest =>
    if sqDist qv r.vector ≤ sqDist qv s.vector then r :: s :: rest
    else s :: insertByDist qv r rest

/-- Model of `table.search(query_vector)` (lines 377 and 393): the
rows of the table ordered by ascending distance to the query embedding. -/
def rankRows (qv : List Int) : List VocabRow → List VocabRow
  | [] => []
  | r :: rest => insertByDist qv r (rankRows qv rest)

/-- Model of LanceDB `.limit(n)`: at most `n` results for positive `n`; a
non-positive `n` is passed through unchecked and means no limit. -/
def limitRows (n : Int) (l : List VocabRow) : List VocabRow :=
  if 0 < n then l.take n.toNat else l

/-- Model of pandas `.head(n)`: the first `n` rows for non-negative `n`; for
negative `n`, all rows but the last `|n|`. -/
def pdHead (n : Int) (l : List α) : List α :=
  if 0 ≤ n then l.take n.toNat else l.take (l.length - (-n).toNat)

/-- Line 398, the projection of results to german_term and english_translation: project the
result rows down to exactly those two columns, in that order. -/
def projectResults (rs : List VocabRow) : DataFrame :=
  { columns := ["german_term", "english_translation"]
    rows := rs.map (fun r => [r.german_term, r.english_translation]) }

/-- Line 407: the column names the extraction step prefers, in order. -/
def candidateVocabColumns : List String := ["word", "vocab", "text", "term", "vocabulary"]

/-- Lines 404-423: if the frame is empty return `[]`; otherwise take the
first candidate column present, falling back to the first column
(`results.iloc[:, 0]`), and return its values truncated with `.head(n)`. -/
def extractVocab (df : DataFrame) (n : Int) : List String :=
  if df.rows.isEmpty then []
  else
    match candidateVocabColumns.find? (fun c => df.columns.contains c) with
    | some c => pdHead n (df.rows.map (fun r => r.getD (df.columns.indexOf c) ""))
    | none => pdHead n (df.rows.map (fun r => r.getD 0 ""))

/-- Lines 395-423 common tail: project to the two columns, extract the
vocabulary strings, and return them. -/
def finishResults (rs : List VocabRow) (n : Int) (ms : ModelState)
    (ev : List Event) (lg : List LogEvent) : FetchOutcome :=
  ⟨.ok (extractVocab (projectResults rs) n), ms, ev, lg⟩

/-- Lines 368-393: run the search against the obtained handle.  A LanceDB
table handle searches and limits (line 393).  A raw `lance.dataset` handle
uses its own `search` when present (line 377); when the search raises, or
when there is no `search`, the code loads the whole dataset and keeps the
first `n` rows, logging the degraded fallback (lines 380-390). -/
def searchPhase (hd : Handle) (qv : List Int) (n : Int) (ms : ModelState)
    (ev : List Event) : FetchOutcome :=
  match hd with
  | .table rows =>
    finishResults (limitRows n (rankRows qv rows)) n ms (ev ++ [.searchTable]) []
  | .lanceDS ds =>
    if ds.hasSearch then
      if ds.searchRaises then
        finishResults (pdHead n ds.rows) n ms (ev ++ [.searchTable, .readDataset])
          [.lanceSearchFailedFallback]
      else
        finishResults (limitRows n (rankRows qv ds.rows)) n ms (ev ++ [.searchTable])
          [.usedLanceSearch]
    else
      finishResults (pdHead n ds.rows) n ms (ev ++ [.readDataset])
        [.noVectorSearchLoadingAll, .returningFirstUnranked n]

/-- Lines 172-359 after a connection is obtained: enumerate the catalog,
resolve the table name, run the open ladder, and either raise the
`TableNotFound` error (line 359) or lazily initialise the model, encode the
query and search (lines 361-423). -/
def fetchAfterConnect (env : Env) (ms : ModelState) (query dbName : String)
    (n : Int) (avail : List String) (tdo : Bool) (ev : List Event) : FetchOutcome :=
  let api := env.apiTables
  let resolved := resolveTableName api dbName
  let o := openLadder env resolved dbName tdo
  let ev := ev ++ [.enumerateTables] ++ o.attempts.map (fun a => Event.accessAttempt a.1 a.2)
  match o.handle with
  | none => ⟨.error (.tableNotFound (mkTNFInfo resolved dbName o avail api)), ms, ev, []⟩
  | some hd =>
    let ms := get_model ms
    let qv := env.encode query
    searchPhase hd qv n ms (ev ++ [.getModelCall, .encodeQuery])

/-- Lines 32-423, `fetch_vocab_from_vector_db(query, level, n)`: validate the
level (line 46), check the storage root (line 57), scan the root directory
(line 73), connect with the plain and `file://` forms (lines 159-170), then
resolve and open the table and search it.  The call is a state transformer
on the model cache `ms`; `n` is a Python integer, deliberately unvalidated
as in the source. -/
def fetch_vocab_from_vector_db (env : Env) (ms : ModelState)
    (query level : String) (n : Int) : FetchOutcome :=
  if !(["A1", "A2", "B1", "B2"].contains level) then
    ⟨.error (.invalidLevel level), ms, [], []⟩
  else
    let dbName := expectedDbName level
    if !env.rootExists then
      ⟨.error .storageMissing, ms, [.checkRootExists], []⟩
    else
      let avail := available_tables env.rootEntries
      let tdo := tableDirOk env.rootEntries dbName
      let ev : List Event := [.checkRootExists, .listRootDir]
      if env.connectOk then
        fetchAfterConnect env ms query dbName n avail tdo (ev ++ [.connectStore])
      else if env.connectUriOk then
        fetchAfterConnect env ms query dbName n avail tdo
          (ev ++ [.connectStore, .connectStoreUri])
      else
        ⟨.error .connectFailed, ms, ev ++ [.connectStore, .connectStoreUri], []⟩

deriving instance DecidableEq for Except

/-- A fresh process: no model cached, constructor never run. -/
def freshModel : ModelState := ⟨false, 0⟩

/-- A vocabulary row used by the concrete test stores. -/
def rowHund : VocabRow := ⟨"Hund", "Dog", [1, 0]⟩

/-- A vocabulary row used by the concrete test stores, farther from the
zero query embedding than `rowHund`. -/
def rowKatze : VocabRow := ⟨"Katze", "Cat", [5, 0]⟩

/-- A store whose root exists and holds the A1 table directory, but in which
every access method raises (each with its own message), the catalog
enumeration returns nothing, and the connection succeeds at the first
attempt.  The other concrete environments below are updates of it. -/
def failEnv : Env :=
  { rootExists := true
    rootEntries := [⟨"A1_MINIMAL_vocabulary.lance", true⟩]
    connectOk := true
    connectUriOk := false
    apiTables := []
    hasTableFn := true
    openTableRes := fun _ => .error "open_table raised"
    bracketRes := fun _ => .error "bracket raised"
    tableFnRes := fun _ => .error "table method raised"
    directPathRes := .error "direct path raised"
    freshConnRes := .error "fresh connection raised"
    lanceRes := .error "lance dataset raised"
    encode := fun _ => [0, 0] }

/-- A store in which `open_table` succeeds at once with two rows. -/
def okEnv : Env := { failEnv with openTableRes := fun _ => .ok [rowKatze, rowHund] }

example :
    (fetch_vocab_from_vector_db okEnv freshModel "Tiere" "A1" 10).result =
      .ok ["Hund", "Katze"] := by decide

example :
    (fetch_vocab_from_vector_db okEnv freshModel "Tiere" "C2" 10).result =
      .error (.invalidLevel "C2") := by decide

example :
    ∃ info, (fetch_vocab_from_vector_db failEnv freshModel "Tiere" "A1" 10).result =
      .error (.tableNotFound info) := ⟨_, rfl⟩

/-- Folding the dedup accumulator collects exactly the members of the
accumulator and of the folded list. -/
theorem mem_foldl_dedup (l : List String) (a : String) :
    ∀ acc, a ∈ l.foldl (fun acc x => if acc.contains x then acc else acc ++ [x]) acc ↔
      a ∈ acc ∨ a ∈ l := by
  induction l with
  | nil => intro acc; simp
  | cons x xs ih =>
    intro acc
    rw [List.foldl_cons, ih]
    by_cases hx : acc.contains x = true
    · simp only [hx, if_pos rfl]
      constructor
      · rintro (h | h)
        · exact Or.inl h
        · exact Or.inr (List.mem_cons_of_mem _ h)
      · rintro (h | h)
        · exact Or.inl h
        · rcases List.mem_cons.mp h with rfl | h
          · exact Or.inl (by simpa using hx)
          · exact Or.inr h
    · simp only [hx]
      constructor
      · rintro (h | h)
        · rcases List.mem_append.mp h with h | h
          · exact Or.inl h
          · simp at h; subst h; exact Or.inr (List.mem_cons_self _ _)
        · exact Or.inr (List.mem_cons_of_mem _ h)
      · rintro (h | h)
        · exact Or.inl (List.mem_append.mpr (Or.inl h))
        · rcases List.mem_cons.mp h with rfl | h
          · exact Or.inl (by simp)
          · exact Or.inr h

/-- Lemma: `pySetList` preserves membership, as Python `list(set(...))` does. -/
theorem mem_pySetList (l : List String) (a : String) : a ∈ pySetList l ↔ a ∈ l := by
  unfold pySetList
  rw [mem_foldl_dedup]
  simp

/-- Invariant of the open ladder: every attempt targets the resolved or the
expected identifier, and while no handle has been obtained the
`last_error` variable of the source holds exactly the most recent exception raised. -/
def ladderInv (resolved dbName : String) (o : OpenOutcome) : Prop :=
  (∀ a ∈ o.attempts, a.2 = resolved ∨ a.2 = dbName) ∧
  (o.handle = none → o.lastError = o.errors.getLast?)

/-- Each rung of the ladder preserves the ladder invariant, provided it
targets the resolved or the expected identifier. -/
theorem ladderStep_inv {resolved dbName : String} {o : OpenOutcome}
    (h : ladderInv resolved dbName o) {guard : Bool} {m : Method} {nm : String}
    (hnm : nm = resolved ∨ nm = dbName) {recordTried resetErrOnOk : Bool}
    {res : Except String Handle} :
    ladderInv resolved dbName (ladderStep o guard m nm recordTried resetErrOnOk res) := by
  obtain ⟨hA, hE⟩ := h
  unfold ladderStep
  split
  · cases res with
    | ok hdl =>
      refine ⟨?_, ?_⟩
      · intro a ha
        rcases List.mem_append.mp ha with ha | ha
        · exact hA a ha
        · simp at ha; subst ha; exact hnm
      · intro hcontra; simp at hcontra
    | error e =>
      refine ⟨?_, ?_⟩
      · intro a ha
        rcases List.mem_append.mp ha with ha | ha
        · exact hA a ha
        · simp at ha; subst ha; exact hnm
      · intro _
        simp [List.getLast?_concat]
  · exact ⟨hA, hE⟩

/-- The ladder invariant holds of the full open ladder. -/
theorem openLadder_inv (env : Env) (resolved dbName : String) (tdo : Bool) :
    ladderInv resolved dbName (openLadder env resolved dbName tdo) := by
  have base : ladderInv resolved dbName ⟨none, [], none, [], []⟩ :=
    ⟨by intro a ha; simp at ha, by intro _; rfl⟩
  exact ladderStep_inv (ladderStep_inv (ladderStep_inv (ladderStep_inv (ladderStep_inv
    (ladderStep_inv (ladderStep_inv (ladderStep_inv (ladderStep_inv base
      (Or.inl rfl)) (Or.inl rfl)) (Or.inl rfl)) (Or.inr rfl)) (Or.inr rfl))
        (Or.inr rfl)) (Or.inr rfl)) (Or.inr rfl)) (Or.inr rfl)

/-- The search phase never touches the model cache it is given. -/
theorem searchPhase_modelState (hd : Handle) (qv : List Int) (n : Int)
    (ms : ModelState) (ev : List Event) :
    (searchPhase hd qv n ms ev).modelState = ms := by
  cases hd with
  | table rows => rfl
  | lanceDS ds =>
    by_cases h1 : ds.hasSearch = true
    · by_cases h2 : ds.searchRaises = true
      · simp [searchPhase, h1, h2, finishResults]
      · simp [searchPhase, h1, h2, finishResults]
    · simp [searchPhase, h1, finishResults]

/-- The search phase always returns successfully, and its value is the
extraction of the projected result rows. -/
theorem searchPhase_result (hd : Handle) (qv : List Int) (n : Int)
    (ms : ModelState) (ev : List Event) :
    ∃ rs, (searchPhase hd qv n ms ev).result =
      .ok (extractVocab (projectResults rs) n) := by
  cases hd with
  | table rows => exact ⟨limitRows n (rankRows qv rows), rfl⟩
  | lanceDS ds =>
    by_cases h1 : ds.hasSearch = true
    · by_cases h2 : ds.searchRaises = true
      · exact ⟨pdHead n ds.rows, by simp [searchPhase, h1, h2, finishResults]⟩
      · exact ⟨limitRows n (rankRows qv ds.rows), by simp [searchPhase, h1, h2, finishResults]⟩
    · exact ⟨pdHead n ds.rows, by simp [searchPhase, h1, finishResults]⟩

/-- The search phase only appends to the event trace it is given. -/
theorem searchPhase_events (hd : Handle) (qv : List Int) (n : Int)
    (ms : ModelState) (ev : List Event) :
    ∃ ev2, (searchPhase hd qv n ms ev).events = ev ++ ev2 := by
  cases hd with
  | table rows => exact ⟨[.searchTable], rfl⟩
  | lanceDS ds =>
    by_cases h1 : ds.hasSearch = true
    · by_cases h2 : ds.searchRaises = true
      · exact ⟨[.searchTable, .readDataset], by simp [searchPhase, h1, h2, finishResults]⟩
      · exact ⟨[.searchTable], by simp [searchPhase, h1, h2, finishResults]⟩
    · exact ⟨[.readDataset], by simp [searchPhase, h1, finishResults]⟩

/-- Every call either raises, leaving the model cache untouched, or reaches
the search phase with the lazily initialised model. -/
theorem fetch_dispatch (env : Env) (ms : ModelState) (q level : String) (n : Int) :
    ((fetch_vocab_from_vector_db env ms q level n).modelState = ms ∧
      ∃ e, (fetch_vocab_from_vector_db env ms q level n).result = .error e) ∨
    (∃ hd ev, fetch_vocab_from_vector_db env ms q level n =
      searchPhase hd (env.encode q) n (get_model ms) ev) := by
  unfold fetch_vocab_from_vector_db fetchAfterConnect
  dsimp only
  split
  · exact Or.inl ⟨rfl, _, rfl⟩
  split
  · exact Or.inl ⟨rfl, _, rfl⟩
  split
  · split
    · exact Or.inl ⟨rfl, _, rfl⟩
    · exact Or.inr ⟨_, _, rfl⟩
  split
  · split
    · exact Or.inl ⟨rfl, _, rfl⟩
    · exact Or.inr ⟨_, _, rfl⟩
  · exact Or.inl ⟨rfl, _, rfl⟩

/-- A successful call leaves the model cache lazily initialised. -/
theorem fetch_ok_modelState (env : Env) (ms : ModelState) (q level : String)
    (n : Int) (xs : List String)
    (hok : (fetch_vocab_from_vector_db env ms q level n).result = .ok xs) :
    (fetch_vocab_from_vector_db env ms q level n).modelState = get_model ms := by
  rcases fetch_dispatch env ms q level n with ⟨_, e, he⟩ | ⟨hd, ev, heq⟩
  · rw [hok] at he; cases he
  · rw [heq, searchPhase_modelState]

/-- A failing call leaves the model cache exactly as it was. -/
theorem fetch_err_modelState (env : Env) (ms : ModelState) (q level : String)
    (n : Int) (e : FetchErr)
    (he : (fetch_vocab_from_vector_db env ms q level n).result = .error e) :
    (fetch_vocab_from_vector_db env ms q level n).modelState = ms := by
  rcases fetch_dispatch env ms q level n with ⟨hms, _⟩ | ⟨hd, ev, heq⟩
  · exact hms
  · exfalso
    obtain ⟨rs, hr⟩ := searchPhase_result hd (env.encode q) n (get_model ms) ev
    rw [heq, hr] at he
    cases he

/-- A pandas head with a non-negative count returns at most that many
items. -/
theorem pdHead_length_le {α : Type} (n : Int) (hn : 0 ≤ n) (l : List α) :
    (pdHead n l).length ≤ n.toNat := by
  unfold pdHead
  rw [if_pos hn]
  simp [List.length_take]

/-- The extraction step returns at most `n` items for positive `n`. -/
theorem extractVocab_length_le (df : DataFrame) (n : Int) (hn : 0 < n) :
    (extractVocab df n).length ≤ n.toNat := by
  unfold extractVocab
  split
  · simp
  · split
    · exact pdHead_length_le n (le_of_lt hn) _
    · exact pdHead_length_le n (le_of_lt hn) _

/-- Extraction after the two-column projection always lands in the
first-projected-column fallback and yields the German terms: none of the
preferred column names of line 407 is among the projected columns. -/
theorem extractVocab_project (rs : List VocabRow) (n : Int) :
    extractVocab (projectResults rs) n = pdHead n (rs.map VocabRow.german_term) := by
  cases rs with
  | nil => simp [extractVocab, projectResults, pdHead]
  | cons r rest =>
    have hf : candidateVocabColumns.find?
        (fun c => (["german_term", "english_translation"] : List String).contains c) =
          none := by decide
    dsimp only [extractVocab, projectResults, List.map, List.isEmpty]
    rw [hf, List.map_map]
    rfl

/-- The search phase never raises. -/
theorem searchPhase_ne_error (hd : Handle) (qv : List Int) (n : Int)
    (ms : ModelState) (ev : List Event) (e : FetchErr) :
    (searchPhase hd qv n ms ev).result ≠ .error e := by
  obtain ⟨rs, hr⟩ := searchPhase_result hd qv n ms ev
  rw [hr]
  simp

/-- Membership in the incoming event trace is preserved by the search
phase. -/
theorem searchPhase_events_mem (hd : Handle) (qv : List Int) (n : Int)
    (ms : ModelState) (ev : List Event) (x : Event) (hx : x ∈ ev) :
    x ∈ (searchPhase hd qv n ms ev).events := by
  obtain ⟨ev2, h2⟩ := searchPhase_events hd qv n ms ev
  rw [h2]
  exact List.mem_append.mpr (Or.inl hx)

/-- After a connection is obtained, the call never reports the
invalid-level error. -/
theorem fetchAfterConnect_not_invalid (env : Env) (ms : ModelState)
    (q dbName : String) (n : Int) (avail : List String) (tdo : Bool)
    (ev : List Event) (l : String) :
    (fetchAfterConnect env ms q dbName n avail tdo ev).result ≠
      .error (.invalidLevel l) := by
  unfold fetchAfterConnect
  dsimp only
  split
  · simp
  · exact searchPhase_ne_error _ _ _ _ _ _

/-- After a connection is obtained, the incoming event trace is
preserved. -/
theorem fetchAfterConnect_events_mem (env : Env) (ms : ModelState)
    (q dbName : String) (n : Int) (avail : List String) (tdo : Bool)
    (ev : List Event) (x : Event) (hx : x ∈ ev) :
    x ∈ (fetchAfterConnect env ms q dbName n avail tdo ev).events := by
  unfold fetchAfterConnect
  dsimp only
  split
  · simp [List.mem_append, hx]
  · exact searchPhase_events_mem _ _ _ _ _ _ (by simp [List.mem_append, hx])

/-- C2 (confirmed): for every level outside A1, A2, B1, B2 the call fails
with the invalid-level error before any storage access occurs: the returned
outcome is exactly the error with an empty event trace (no filesystem check,
no connection), an untouched model cache and no logs. -/
theorem invalid_level_fails_before_storage (env : Env) (ms : ModelState)
    (q level : String) (n : Int)
    (h : level ∉ (["A1", "A2", "B1", "B2"] : List String)) :
    fetch_vocab_from_vector_db env ms q level n =
      ⟨.error (.invalidLevel level), ms, [], []⟩ := by
  have hc : (["A1", "A2", "B1", "B2"] : List String).contains level = false := by
    simpa using h
  unfold fetch_vocab_from_vector_db
  rw [hc]
  rfl

/-- Witness for C2 at the concrete level C1, which is not a supported
level. -/
theorem invalid_level_fails_before_storage_witness :
    fetch_vocab_from_vector_db failEnv freshModel "Wetter" "C1" 10 =
      ⟨.error (.invalidLevel "C1"), freshModel, [], []⟩ :=
  invalid_level_fails_before_storage failEnv freshModel "Wetter" "C1" 10 (by decide)

/-- C9 (confirmed): every failing call leaves the embedding-model singleton
state unchanged — in particular the constructor count is unchanged, so the
model is never loaded on a failing call. -/
theorem failing_call_leaves_model_untouched (env : Env) (ms : ModelState)
    (q level : String) (n : Int) (e : FetchErr)
    (he : (fetch_vocab_from_vector_db env ms q level n).result = .error e) :
    (fetch_vocab_from_vector_db env ms q level n).modelState = ms :=
  fetch_err_modelState env ms q level n e he

/-- The diagnostic payload produced by the all-failing store `failEnv`. -/
def failInfo : TNFInfo :=
  ⟨"A1_MINIMAL_vocabulary", ["A1_MINIMAL_vocabulary"], some "lance dataset raised",
    ["A1_MINIMAL_vocabulary.lance"], []⟩

/-- Witness for C9: on the all-failing store the call fails with the
table-not-found error and the fresh model cache is returned untouched. -/
theorem failing_call_leaves_model_untouched_witness :
    (fetch_vocab_from_vector_db failEnv freshModel "Tiere" "A1" 10).modelState =
      freshModel :=
  failing_call_leaves_model_untouched failEnv freshModel "Tiere" "A1" 10
    (.tableNotFound failInfo) (by decide)

/-- C10 (confirmed): the `n` argument is not validated.  For every
non-positive `n` and valid level, the call never fails with the
invalid-level error and still reaches the storage-root check: only the
level argument is validated. -/
theorem nonpositive_n_not_validated (env : Env) (ms : ModelState)
    (q level : String) (n : Int) (_hn : n ≤ 0)
    (hlevel : level ∈ (["A1", "A2", "B1", "B2"] : List String)) :
    (∀ l, (fetch_vocab_from_vector_db env ms q level n).result ≠
      .error (.invalidLevel l)) ∧
    Event.checkRootExists ∈ (fetch_vocab_from_vector_db env ms q level n).events := by
  have hc : (["A1", "A2", "B1", "B2"] : List String).contains level = true := by
    simpa using hlevel
  constructor
  · intro l
    unfold fetch_vocab_from_vector_db
    dsimp only
    rw [hc]
    simp only [Bool.not_true]
    split
    · contradiction
    · split
      · simp
      · split
        · exact fetchAfterConnect_not_invalid _ _ _ _ _ _ _ _ _
        · split
          · exact fetchAfterConnect_not_invalid _ _ _ _ _ _ _ _ _
          · simp
  · unfold fetch_vocab_from_vector_db
    dsimp only
    rw [hc]
    simp only [Bool.not_true]
    split
    · contradiction
    · split
      · simp
      · split
        · exact fetchAfterConnect_events_mem _ _ _ _ _ _ _ _ _ (by simp)
        · split
          · exact fetchAfterConnect_events_mem _ _ _ _ _ _ _ _ _ (by simp)
          · simp

/-- Witness for C10: a negative n is accepted; the call reaches the
storage-root check and does not report the invalid-level error. -/
theorem nonpositive_n_not_validated_witness :
    ((fetch_vocab_from_vector_db okEnv freshModel "Tiere" "A1" (-5)).result ≠
      .error (.invalidLevel "A1")) ∧
    Event.checkRootExists ∈
      (fetch_vocab_from_vector_db okEnv freshModel "Tiere" "A1" (-5)).events :=
  ⟨(nonpositive_n_not_validated okEnv freshModel "Tiere" "A1" (-5) (by decide)
      (by decide)).1 "A1",
   (nonpositive_n_not_validated okEnv freshModel "Tiere" "A1" (-5) (by decide)
      (by decide)).2⟩

/-- C8 (confirmed): the embedding model is a lazily initialised process-wide
singleton.  Starting from a fresh process, across two consecutive successful
calls the constructor runs exactly once: after the first successful call the
constructor count is one, and it is still one after the second. -/
theorem model_constructed_once_across_two_calls (env1 env2 : Env)
    (q1 q2 l1 l2 : String) (n1 n2 : Int) (xs ys : List String)
    (h1 : (fetch_vocab_from_vector_db env1 freshModel q1 l1 n1).result = .ok xs)
    (h2 : (fetch_vocab_from_vector_db env2
      (fetch_vocab_from_vector_db env1 freshModel q1 l1 n1).modelState
        q2 l2 n2).result = .ok ys) :
    (fetch_vocab_from_vector_db env1 freshModel q1 l1 n1).modelState.loadCount = 1 ∧
    (fetch_vocab_from_vector_db env2
      (fetch_vocab_from_vector_db env1 freshModel q1 l1 n1).modelState
        q2 l2 n2).modelState.loadCount = 1 := by
  have e1 := fetch_ok_modelState env1 freshModel q1 l1 n1 xs h1
  have e2 := fetch_ok_modelState env2
    ((fetch_vocab_from_vector_db env1 freshModel q1 l1 n1).modelState) q2 l2 n2 ys h2
  constructor
  · rw [e1]
    rfl
  · rw [e2, e1]
    rfl

/-- Witness for C8: two consecutive successful calls on concrete stores;
the constructor count is one after each. -/
theorem model_constructed_once_across_two_calls_witness :
    (fetch_vocab_from_vector_db okEnv freshModel "Tiere" "A1" 10).modelState.loadCount = 1 ∧
    (fetch_vocab_from_vector_db okEnv
      (fetch_vocab_from_vector_db okEnv freshModel "Tiere" "A1" 10).modelState
        "Essen" "A2" 5).modelState.loadCount = 1 :=
  model_constructed_once_across_two_calls okEnv okEnv "Tiere" "Essen" "A1" "A2" 10 5
    ["Hund", "Katze"] ["Hund", "Katze"] (by decide) (by decide)

/-- C4 (confirmed): table-identifier resolution precedence.  An exact match
among the enumerated identifiers is used directly; otherwise the first
case-insensitive match is used; otherwise (in particular when enumeration is
unavailable, modelled by the empty list) the expected identifier itself is
used unmodified. -/
theorem resolve_table_name_precedence (api : List String) (dbName : String) :
    (api.contains dbName = true → resolveTableName api dbName = dbName) ∧
    (api.contains dbName = false →
      ∀ nm, api.find? (fun m => strLower m == strLower dbName) = some nm →
        resolveTableName api dbName = nm) ∧
    ((api = [] ∨ (api.contains dbName = false ∧
      api.find? (fun m => strLower m == strLower dbName) = none)) →
      resolveTableName api dbName = dbName) := by
  refine ⟨fun h => ?_, fun h nm hf => ?_, fun h => ?_⟩
  · have hmem : dbName ∈ api := by simpa using h
    have hne : api.isEmpty = false := by
      cases api with
      | nil => simp at hmem
      | cons a l => rfl
    simp [resolveTableName, hne, hmem]
  · have hmem : dbName ∉ api := by simpa using h
    have hne : api.isEmpty = false := by
      cases api with
      | nil => simp at hf
      | cons a l => rfl
    simp [resolveTableName, hne, hmem, hf]
  · rcases h with rfl | ⟨h1, h2⟩
    · rfl
    · by_cases hne : api.isEmpty = true
      · simp [resolveTableName, hne]
      · simp [resolveTableName, hne, h1, h2]

/-- Witness for C4: the three precedence cases at concrete identifier
lists — exact match, case-insensitive match, and empty enumeration. -/
theorem resolve_table_name_precedence_witness :
    resolveTableName ["A1_MINIMAL_vocabulary"] "A1_MINIMAL_vocabulary" =
      "A1_MINIMAL_vocabulary" ∧
    resolveTableName ["a1_minimal_vocabulary"] "A1_MINIMAL_vocabulary" =
      "a1_minimal_vocabulary" ∧
    resolveTableName [] "A1_MINIMAL_vocabulary" = "A1_MINIMAL_vocabulary" :=
  ⟨(resolve_table_name_precedence ["A1_MINIMAL_vocabulary"] "A1_MINIMAL_vocabulary").1
      (by decide),
   (resolve_table_name_precedence ["a1_minimal_vocabulary"] "A1_MINIMAL_vocabulary").2.1
      (by decide) "a1_minimal_vocabulary" (by decide),
   (resolve_table_name_precedence [] "A1_MINIMAL_vocabulary").2.2 (Or.inl rfl)⟩

/-- When the first rung succeeds, the ladder stops at once: the handle is
the opened table, one name was tried, one attempt was made, no error was
recorded. -/
theorem openLadder_m1_ok (env : Env) (resolved dbName : String) (tdo : Bool)
    (rows : List VocabRow) (h : env.openTableRes resolved = .ok rows) :
    openLadder env resolved dbName tdo =
      ⟨some (.table rows), [resolved], none, [(.openTable, resolved)], []⟩ := by
  unfold openLadder
  dsimp only
  rw [h]
  rfl

/-- A call with a valid level, an existing storage root and a working first
connection reduces to the post-connection stage. -/
theorem fetch_valid_connect (env : Env) (ms : ModelState) (q level : String)
    (n : Int)
    (hc : (["A1", "A2", "B1", "B2"] : List String).contains level = true)
    (hroot : env.rootExists = true) (hconn : env.connectOk = true) :
    fetch_vocab_from_vector_db env ms q level n =
      fetchAfterConnect env ms q (expectedDbName level) n
        (available_tables env.rootEntries)
        (tableDirOk env.rootEntries (expectedDbName level))
        [Event.checkRootExists, Event.listRootDir, Event.connectStore] := by
  unfold fetch_vocab_from_vector_db
  rw [hc, hroot, hconn]
  rfl

/-- When the ladder produced a handle, the post-connection stage is the
search phase on that handle, with the model lazily initialised. -/
theorem fetchAfterConnect_handle_some (env : Env) (ms : ModelState)
    (q dbName : String) (n : Int) (avail : List String) (tdo : Bool)
    (ev : List Event) (hd : Handle)
    (h : (openLadder env (resolveTableName env.apiTables dbName) dbName tdo).handle =
      some hd) :
    fetchAfterConnect env ms q dbName n avail tdo ev =
      searchPhase hd (env.encode q) n (get_model ms)
        (ev ++ [.enumerateTables] ++
          ((openLadder env (resolveTableName env.apiTables dbName) dbName
            tdo).attempts.map (fun a => Event.accessAttempt a.1 a.2)) ++
          [.getModelCall, .encodeQuery]) := by
  unfold fetchAfterConnect
  dsimp only
  rw [h]

/-- A store in which `open_table` succeeds at once with a table of zero
rows. -/
def emptyTableEnv : Env := { failEnv with openTableRes := fun _ => .ok [] }

/-- C3 (confirmed): for every valid level and positive `n`, a successful
call returns at most `n` items; and a table with zero rows yields the empty
sequence as a success, not an error. -/
theorem result_bounded_and_empty_table_ok :
    (∀ (env : Env) (ms : ModelState) (q level : String) (n : Int) (xs : List String),
      level ∈ (["A1", "A2", "B1", "B2"] : List String) → 0 < n →
      (fetch_vocab_from_vector_db env ms q level n).result = .ok xs →
      xs.length ≤ n.toNat) ∧
    (∀ (env : Env) (ms : ModelState) (q level : String) (n : Int),
      level ∈ (["A1", "A2", "B1", "B2"] : List String) →
      env.rootExists = true → env.connectOk = true →
      env.openTableRes (resolveTableName env.apiTables (expectedDbName level)) = .ok [] →
      (fetch_vocab_from_vector_db env ms q level n).result = .ok []) := by
  constructor
  · intro env ms q level n xs _hlevel hn hok
    rcases fetch_dispatch env ms q level n with ⟨_, e, he⟩ | ⟨hd, ev, heq⟩
    · rw [hok] at he; cases he
    · obtain ⟨rs, hr⟩ := searchPhase_result hd (env.encode q) n (get_model ms) ev
      rw [heq, hr] at hok
      have hxs : xs = extractVocab (projectResults rs) n := by
        injection hok with h
        exact h.symm
      rw [hxs]
      exact extractVocab_length_le _ n hn
  · intro env ms q level n hlevel hroot hconn hopen
    have hc : (["A1", "A2", "B1", "B2"] : List String).contains level = true := by
      simpa using hlevel
    rw [fetch_valid_connect env ms q level n hc hroot hconn,
      fetchAfterConnect_handle_some env ms q (expectedDbName level) n _ _ _
        (Handle.table []) (by rw [openLadder_m1_ok env _ _ _ [] hopen])]
    simp [searchPhase, finishResults, rankRows, limitRows, extractVocab_project, pdHead]

/-- Witness for C3: with `n = 1` the two-row store returns one item, and the
zero-row store returns the empty list successfully. -/
theorem result_bounded_and_empty_table_ok_witness :
    (["Hund"] : List String).length ≤ (1 : Int).toNat ∧
    (fetch_vocab_from_vector_db emptyTableEnv freshModel "Tiere" "A1" 10).result =
      .ok [] :=
  ⟨result_bounded_and_empty_table_ok.1 okEnv freshModel "Tiere" "A1" 1 ["Hund"]
      (by decide) (by decide) (by decide),
   result_bounded_and_empty_table_ok.2 emptyTableEnv freshModel "Tiere" "A1" 10
      (by decide) rfl rfl rfl⟩

/-- C1 counterexample: the store row for "Hund" carries the English
translation "Dog" and the row for "Katze" carries "Cat", yet the successful
call returns only the bare German terms: no returned element carries an
English translation, refuting "each returned element carries both the
German term and its English translation".  (The ranking part holds: the
store lists Katze first, the result is distance-ordered.) -/
theorem fetch_drops_translation_cex :
    (fetch_vocab_from_vector_db okEnv freshModel "Tiere" "A1" 10).result =
      .ok ["Hund", "Katze"] ∧
    "Dog" ∉ (["Hund", "Katze"] : List String) ∧
    "Cat" ∉ (["Hund", "Katze"] : List String) := by decide

/-- C1 (corrected): for every successful call through the standard client
path, the result is the ordered sequence of German terms of the ranked rows
only — the values of the first projected column — truncated to `n`; the
English translation is projected but then dropped by the column-extraction
step, because none of the preferred vocabulary column names is among the two
projected columns. -/
theorem fetch_returns_ranked_german_terms (env : Env) (ms : ModelState)
    (q level : String) (n : Int) (rows : List VocabRow)
    (hlevel : level ∈ (["A1", "A2", "B1", "B2"] : List String))
    (hroot : env.rootExists = true) (hconn : env.connectOk = true)
    (hopen : env.openTableRes (resolveTableName env.apiTables (expectedDbName level)) =
      .ok rows) :
    (fetch_vocab_from_vector_db env ms q level n).result =
      .ok (pdHead n ((limitRows n (rankRows (env.encode q) rows)).map
        VocabRow.german_term)) := by
  have hc : (["A1", "A2", "B1", "B2"] : List String).contains level = true := by
    simpa using hlevel
  rw [fetch_valid_connect env ms q level n hc hroot hconn,
    fetchAfterConnect_handle_some env ms q (expectedDbName level) n _ _ _
      (Handle.table rows) (by rw [openLadder_m1_ok env _ _ _ rows hopen])]
  simp [searchPhase, finishResults, extractVocab_project]

/-- Witness for the corrected C1 on the concrete two-row store. -/
theorem fetch_returns_ranked_german_terms_witness :
    (fetch_vocab_from_vector_db okEnv freshModel "Tiere" "A1" 10).result =
      .ok ["Hund", "Katze"] :=
  (fetch_returns_ranked_german_terms okEnv freshModel "Tiere" "A1" 10
    [rowKatze, rowHund] (by decide) rfl rfl rfl).trans (by decide)

/-- C5 counterexample: on a store with no catalog enumeration the resolved
identifier equals the expected identifier, yet after the first-round
methods fail the code still makes a second round of access attempts with
the expected identifier — the bracket and table() accessors each run twice
with the same name — refuting "when the two identifiers are equal, no
second round of access attempts with the expected identifier is made". -/
theorem retry_with_equal_names_cex :
    resolveTableName failEnv.apiTables "A1_MINIMAL_vocabulary" =
      "A1_MINIMAL_vocabulary" ∧
    (fetch_vocab_from_vector_db failEnv freshModel "Tiere" "A1" 10).events.count
      (Event.accessAttempt .bracket "A1_MINIMAL_vocabulary") = 2 ∧
    (fetch_vocab_from_vector_db failEnv freshModel "Tiere" "A1" 10).events.count
      (Event.accessAttempt .tableFn "A1_MINIMAL_vocabulary") = 2 := by decide

/-- C5 (corrected): when every access method fails, the second-round
attempts with the expected identifier run regardless of whether the
resolved identifier differs from the expected one; only the open_table
retry is conditional, on the enumeration listing the resolved identifier
(not on the identifiers differing), and the direct-path and raw-dataset
attempts are conditional on the expected table directory existing. -/
theorem second_round_runs_regardless (env : Env) (resolved dbName : String)
    (tdo : Bool) (e1 e2 e3 e4 e5 e6 e7 e8 e9 : String)
    (h1 : env.openTableRes resolved = .error e1)
    (h2 : env.bracketRes resolved = .error e2)
    (h3 : env.tableFnRes resolved = .error e3)
    (h4 : env.openTableRes dbName = .error e4)
    (h5 : env.bracketRes dbName = .error e5)
    (h6 : env.tableFnRes dbName = .error e6)
    (h7 : env.directPathRes = .error e7)
    (h8 : env.freshConnRes = .error e8)
    (h9 : env.lanceRes = .error e9)
    (hT : env.hasTableFn = true) :
    (openLadder env resolved dbName tdo).attempts =
      [(.openTable, resolved), (.bracket, resolved), (.tableFn, resolved)] ++
      (if !env.apiTables.isEmpty && env.apiTables.contains resolved then
        [(.openTable, dbName)] else []) ++
      [(.bracket, dbName), (.tableFn, dbName)] ++
      (if tdo then [(.directPath, dbName)] else []) ++
      [(.freshConn, dbName)] ++
      (if tdo then [(.lanceDirect, dbName)] else []) := by
  by_cases hg : ¬env.apiTables = [] ∧ resolved ∈ env.apiTables
  · by_cases ht : tdo = true
    · simp [openLadder, ladderStep, Except.map, h1, h2, h3, h4, h5, h6, h7, h8, h9, hT, hg, ht]
    · simp [openLadder, ladderStep, Except.map, h1, h2, h3, h4, h5, h6, h7, h8, h9, hT, hg, ht]
  · by_cases ht : tdo = true
    · simp [openLadder, ladderStep, Except.map, h1, h2, h3, h4, h5, h6, h7, h8, h9, hT, hg, ht]
    · simp [openLadder, ladderStep, Except.map, h1, h2, h3, h4, h5, h6, h7, h8, h9, hT, hg, ht]

/-- Witness for the corrected C5: on the all-failing store with equal
resolved and expected identifiers, the attempt sequence contains the full
second round with the expected identifier. -/
theorem second_round_runs_regardless_witness :
    (openLadder failEnv "A1_MINIMAL_vocabulary" "A1_MINIMAL_vocabulary"
      true).attempts =
      [(.openTable, "A1_MINIMAL_vocabulary"), (.bracket, "A1_MINIMAL_vocabulary"),
       (.tableFn, "A1_MINIMAL_vocabulary"), (.bracket, "A1_MINIMAL_vocabulary"),
       (.tableFn, "A1_MINIMAL_vocabulary"), (.directPath, "A1_MINIMAL_vocabulary"),
       (.freshConn, "A1_MINIMAL_vocabulary"), (.lanceDirect, "A1_MINIMAL_vocabulary")] :=
  (second_round_runs_regardless failEnv "A1_MINIMAL_vocabulary"
    "A1_MINIMAL_vocabulary" true "open_table raised" "bracket raised"
    "table method raised" "open_table raised" "bracket raised"
    "table method raised" "direct path raised" "fresh connection raised"
    "lance dataset raised" rfl rfl rfl rfl rfl rfl rfl rfl rfl rfl).trans
    (by decide)

/-- C6 counterexample: on the all-failing store the ladder encounters eight
underlying errors, among them the open_table exception, but the diagnostic
single error slot of the payload holds only the last one, raised by the lance reader:
the payload does not carry every underlying error encountered, refuting
that part of the claim. -/
theorem tnf_payload_misses_errors_cex :
    (fetch_vocab_from_vector_db failEnv freshModel "Tiere" "A1" 10).result =
      .error (.tableNotFound failInfo) ∧
    "open_table raised" ∈ (openLadder failEnv
      (resolveTableName failEnv.apiTables "A1_MINIMAL_vocabulary")
      "A1_MINIMAL_vocabulary"
      (tableDirOk failEnv.rootEntries "A1_MINIMAL_vocabulary")).errors ∧
    failInfo.lastError = some "lance dataset raised" ∧
    some "open_table raised" ≠ failInfo.lastError := by decide

/-- C6 (corrected): when no strategy succeeds, the table-not-found payload
carries every identifier attempted, the identifiers discovered by the
directory scan and by the catalog enumeration — but of the underlying
errors it carries only the last one encountered, not every one. -/
theorem tnf_payload_contents (env : Env) (resolved dbName : String)
    (tdo : Bool) (avail api : List String)
    (hnone : (openLadder env resolved dbName tdo).handle = none) :
    (∀ a ∈ (openLadder env resolved dbName tdo).attempts,
      a.2 ∈ (mkTNFInfo resolved dbName (openLadder env resolved dbName tdo)
        avail api).triedNames) ∧
    (mkTNFInfo resolved dbName (openLadder env resolved dbName tdo)
      avail api).lastError =
      (openLadder env resolved dbName tdo).errors.getLast? ∧
    (mkTNFInfo resolved dbName (openLadder env resolved dbName tdo)
      avail api).availableTables = avail ∧
    (mkTNFInfo resolved dbName (openLadder env resolved dbName tdo)
      avail api).apiTables = api := by
  obtain ⟨hA, hE⟩ := openLadder_inv env resolved dbName tdo
  refine ⟨?_, hE hnone, rfl, rfl⟩
  intro a ha
  have hor : a.2 = resolved ∨ a.2 = dbName := hA a ha
  have hmem : a.2 ∈
      (resolved :: dbName :: (openLadder env resolved dbName tdo).triedNames) := by
    rcases hor with h | h
    · rw [h]; exact List.mem_cons_self _ _
    · rw [h]; exact List.mem_cons_of_mem _ (List.mem_cons_self _ _)
  exact (mem_pySetList _ _).mpr hmem

/-- Witness for the corrected C6 on the all-failing store: the attempted
identifier is in the payload and the payload error is the last ladder
error. -/
theorem tnf_payload_contents_witness :
    "A1_MINIMAL_vocabulary" ∈ (mkTNFInfo "A1_MINIMAL_vocabulary"
      "A1_MINIMAL_vocabulary" (openLadder failEnv "A1_MINIMAL_vocabulary"
      "A1_MINIMAL_vocabulary" true) ["A1_MINIMAL_vocabulary.lance"] []).triedNames ∧
    (mkTNFInfo "A1_MINIMAL_vocabulary" "A1_MINIMAL_vocabulary"
      (openLadder failEnv "A1_MINIMAL_vocabulary" "A1_MINIMAL_vocabulary" true)
      ["A1_MINIMAL_vocabulary.lance"] []).lastError =
      (openLadder failEnv "A1_MINIMAL_vocabulary" "A1_MINIMAL_vocabulary"
        true).errors.getLast? :=
  ⟨(tnf_payload_contents failEnv "A1_MINIMAL_vocabulary" "A1_MINIMAL_vocabulary"
      true ["A1_MINIMAL_vocabulary.lance"] [] (by decide)).1
      (Method.openTable, "A1_MINIMAL_vocabulary") (by decide),
   (tnf_payload_contents failEnv "A1_MINIMAL_vocabulary" "A1_MINIMAL_vocabulary"
      true ["A1_MINIMAL_vocabulary.lance"] [] (by decide)).2.1⟩

/-- A store in which every client method fails but the raw-dataset reader
succeeds with a dataset that does not support vector search: the unranked
fallback path of method 7. -/
def unrankedEnv : Env :=
  { failEnv with lanceRes := .ok ⟨[rowHund, rowKatze], false, false⟩ }

/-- C7 counterexample: an unranked-fallback run and a ranked run deliver
the very same caller-visible value (the same list of strings, with no
marker); the degraded mode shows up only in the logs.  This refutes "the
outcome delivered to the caller is distinguishable from a ranked
result". -/
theorem unranked_result_indistinguishable_cex :
    (fetch_vocab_from_vector_db unrankedEnv freshModel "Tiere" "A1" 10).result =
      (fetch_vocab_from_vector_db okEnv freshModel "Tiere" "A1" 10).result ∧
    (fetch_vocab_from_vector_db unrankedEnv freshModel "Tiere" "A1" 10).logs =
      [.noVectorSearchLoadingAll, .returningFirstUnranked 10] ∧
    (fetch_vocab_from_vector_db okEnv freshModel "Tiere" "A1" 10).logs = [] := by
  decide

/-- C7 (corrected): when the raw-dataset fallback cannot perform similarity
search, the first `n` rows are returned unranked and the degraded mode is
flagged distinctly in the logs — the loading-all warning and the
not-semantically-ranked warning — but not in the value delivered to the
caller, which is a plain list of strings like any ranked result. -/
theorem unranked_fallback_flagged_in_logs (env : Env) (ms : ModelState)
    (q level : String) (n : Int) (ds : LanceDataset)
    (e1 e2 e3 e7 e8 : String)
    (hlevel : level ∈ (["A1", "A2", "B1", "B2"] : List String))
    (hroot : env.rootExists = true) (hconn : env.connectOk = true)
    (hapi : env.apiTables = []) (hT : env.hasTableFn = true)
    (htdo : tableDirOk env.rootEntries (expectedDbName level) = true)
    (h1 : env.openTableRes (expectedDbName level) = .error e1)
    (h2 : env.bracketRes (expectedDbName level) = .error e2)
    (h3 : env.tableFnRes (expectedDbName level) = .error e3)
    (h7 : env.directPathRes = .error e7)
    (h8 : env.freshConnRes = .error e8)
    (hl : env.lanceRes = .ok ds) (hs : ds.hasSearch = false) :
    (fetch_vocab_from_vector_db env ms q level n).logs =
      [.noVectorSearchLoadingAll, .returningFirstUnranked n] ∧
    (fetch_vocab_from_vector_db env ms q level n).result =
      .ok (pdHead n ((pdHead n ds.rows).map VocabRow.german_term)) := by
  have hc : (["A1", "A2", "B1", "B2"] : List String).contains level = true := by
    simpa using hlevel
  have hres : resolveTableName env.apiTables (expectedDbName level) =
      expectedDbName level := by
    rw [hapi]
    rfl
  have hh : (openLadder env (resolveTableName env.apiTables (expectedDbName level))
      (expectedDbName level) (tableDirOk env.rootEntries (expectedDbName level))).handle =
      some (.lanceDS ds) := by
    rw [hres, htdo]
    simp [openLadder, ladderStep, Except.map, h1, h2, h3, h7, h8, hl, hT, hapi]
  rw [fetch_valid_connect env ms q level n hc hroot hconn,
    fetchAfterConnect_handle_some env ms q (expectedDbName level) n _ _ _
      (Handle.lanceDS ds) hh]
  constructor
  · simp [searchPhase, hs, finishResults]
  · simp [searchPhase, hs, finishResults, extractVocab_project]

/-- Witness for the corrected C7 on the concrete unranked store. -/
theorem unranked_fallback_flagged_in_logs_witness :
    (fetch_vocab_from_vector_db unrankedEnv freshModel "Tiere" "A1" 10).logs =
      [.noVectorSearchLoadingAll, .returningFirstUnranked 10] ∧
    (fetch_vocab_from_vector_db unrankedEnv freshModel "Tiere" "A1" 10).result =
      .ok ["Hund", "Katze"] :=
  ⟨(unranked_fallback_flagged_in_logs unrankedEnv freshModel "Tiere" "A1" 10
      ⟨[rowHund, rowKatze], false, false⟩ "open_table raised" "bracket raised"
      "table method raised" "direct path raised" "fresh connection raised"
      (by decide) rfl rfl rfl rfl (by decide) rfl rfl rfl rfl rfl rfl rfl).1,
   ((unranked_fallback_flagged_in_logs unrankedEnv freshModel "Tiere" "A1" 10
      ⟨[rowHund, rowKatze], false, false⟩ "open_table raised" "bracket raised"
      "table method raised" "direct path raised" "fresh connection raised"
      (by decide) rfl rfl rfl rfl (by decide) rfl rfl rfl rfl rfl rfl rfl).2).trans
      (by decide)⟩
